import Mathlib

/-!
Verification of the StudyAI backend (`src/backend/server.py`).

The file shallow-embeds the subject-routing core of the service:
the keyword classifier `detect_subject`, the static configuration tables
`AI_MODELS` and `UNIVERSITY_RESOURCES` with their lookup functions,
the prompt builder `create_educational_system_message`, the
`/resources/{subject}` endpoint, and the `/chat` orchestration handler
`chat_with_ai` (modelled as a pure state transformer over an abstract
provider-send function and an explicit database state).
-/

set_option maxHeartbeats 1000000

namespace StudyAI

/-- Does `hay` start with `needle`? Helper for Python substring containment. -/
def charsStartWith : List Char → List Char → Bool
  | [], _ => true
  | _ :: _, [] => false
  | a :: as, b :: bs => a == b && charsStartWith as bs

/-- Does `hay` contain `needle` as a contiguous sublist? -/
def charsContain (needle : List Char) : List Char → Bool
  | [] => needle.isEmpty
  | b :: bs => charsStartWith needle (b :: bs) || charsContain needle bs

/-- Python `needle in hay` on strings: substring containment. -/
def strIn (needle hay : String) : Bool :=
  charsContain needle.toList hay.toList

/-- Python `s.lower()`, modelled character by character with the
basic-latin lowering `Char.toLower` (all keywords and table keys are
ASCII). -/
def strLower (s : String) : String :=
  ⟨s.data.map Char.toLower⟩

/-- Keyword list `photo_keywords` from `detect_subject` (server.py line 126). -/
def photo_keywords : List String :=
  ["photo", "photography", "camera", "lens", "exposure", "aperture", "iso",
   "composition", "lighting", "portrait", "landscape"]

/-- Keyword list `film_keywords` from `detect_subject` (server.py line 127). -/
def film_keywords : List String :=
  ["film", "cinema", "director", "directing", "movie", "screenplay",
   "cinematography", "editing", "production", "script"]

/-- Keyword list `math_keywords` from `detect_subject` (server.py line 128). -/
def math_keywords : List String :=
  ["math", "mathematics", "algebra", "calculus", "geometry", "statistics",
   "equation", "formula", "theorem", "proof", "integral", "derivative"]

/-- Python `sum(1 for keyword in keywords if keyword in message_lower)`:
the number of distinct keywords of the list occurring in the message. -/
def keywordScore (keywords : List String) (message_lower : String) : Nat :=
  (keywords.filter (fun k => strIn k message_lower)).length

/-- Embedding of `detect_subject` (server.py lines 122-141). -/
def detect_subject (message : String) : String :=
  let message_lower := strLower message
  let photo_score := keywordScore photo_keywords message_lower
  let film_score := keywordScore film_keywords message_lower
  let math_score := keywordScore math_keywords message_lower
  if photo_score > film_score ∧ photo_score > math_score then "photography"
  else if film_score > math_score then "film_directing"
  else if math_score > 0 then "mathematics"
  else "default"

/-- The photography score of a message, as `detect_subject` computes it. -/
def photo_score (message : String) : Nat :=
  keywordScore photo_keywords (strLower message)

/-- The film score of a message, as `detect_subject` computes it. -/
def film_score (message : String) : Nat :=
  keywordScore film_keywords (strLower message)

/-- The mathematics score of a message, as `detect_subject` computes it. -/
def math_score (message : String) : Nat :=
  keywordScore math_keywords (strLower message)

/-- An AI model descriptor: `{"provider": ..., "model": ...}`. -/
structure ModelDescriptor where
  provider : String
  model : String
deriving DecidableEq, Repr

/-- Embedding of the `AI_MODELS` dict (server.py lines 37-43) as an
association list in declaration order. -/
def AI_MODELS : List (String × ModelDescriptor) :=
  [("photography", ⟨"anthropic", "claude-sonnet-4-20250514"⟩),
   ("film_directing", ⟨"gemini", "gemini-2.0-flash"⟩),
   ("media", ⟨"gemini", "gemini-2.0-flash"⟩),
   ("mathematics", ⟨"openai", "gpt-4o"⟩),
   ("default", ⟨"openai", "gpt-4o"⟩)]

/-- A university resource record of `UNIVERSITY_RESOURCES`:
`{"name": ..., "url": ..., "department": ...}`. -/
structure SourceRec where
  name : String
  url : String
  department : String
deriving DecidableEq, Repr

/-- Embedding of the `UNIVERSITY_RESOURCES` dict (server.py lines 46-92)
as an association list, entries in declaration order. -/
def UNIVERSITY_RESOURCES : List (String × List SourceRec) :=
  [("photography",
    [⟨"Harvard University", "https://www.harvard.edu", "Visual and Environmental Studies"⟩,
     ⟨"Oxford University", "https://www.ox.ac.uk", "Ruskin School of Art"⟩,
     ⟨"Stanford University", "https://www.stanford.edu", "Art & Art History"⟩,
     ⟨"MIT", "https://www.mit.edu", "Architecture"⟩,
     ⟨"Yale University", "https://www.yale.edu", "School of Art"⟩,
     ⟨"ANU", "https://www.anu.edu.au", "School of Art & Design"⟩,
     ⟨"Cambridge University", "https://www.cam.ac.uk", "History of Art"⟩,
     ⟨"UCLA", "https://www.ucla.edu", "Arts and Architecture"⟩,
     ⟨"NYU", "https://www.nyu.edu", "Tisch School of the Arts"⟩,
     ⟨"Columbia University", "https://www.columbia.edu", "School of the Arts"⟩,
     ⟨"Princeton University", "https://www.princeton.edu", "Art and Archaeology"⟩,
     ⟨"University of Edinburgh", "https://www.ed.ac.uk", "Edinburgh College of Art"⟩,
     ⟨"Royal College of Art", "https://www.rca.ac.uk", "Photography"⟩]),
   ("film_directing",
    [⟨"USC", "https://www.usc.edu", "School of Cinematic Arts"⟩,
     ⟨"NYU", "https://www.nyu.edu", "Tisch School of the Arts"⟩,
     ⟨"UCLA", "https://www.ucla.edu", "School of Theater, Film and Television"⟩,
     ⟨"AFI", "https://www.afi.com", "American Film Institute"⟩,
     ⟨"Columbia University", "https://www.columbia.edu", "School of the Arts"⟩,
     ⟨"Harvard University", "https://www.harvard.edu", "Visual and Environmental Studies"⟩,
     ⟨"Yale University", "https://www.yale.edu", "School of Drama"⟩,
     ⟨"Stanford University", "https://www.stanford.edu", "Film Studies"⟩,
     ⟨"ANU", "https://www.anu.edu.au", "School of Art & Design"⟩,
     ⟨"Cambridge University", "https://www.cam.ac.uk", "Film Studies"⟩,
     ⟨"Oxford University", "https://www.ox.ac.uk", "Film Studies"⟩,
     ⟨"Northwestern University", "https://www.northwestern.edu", "Radio/Television/Film"⟩,
     ⟨"University of Edinburgh", "https://www.ed.ac.uk", "Film Studies"⟩]),
   ("mathematics",
    [⟨"MIT", "https://www.mit.edu", "Mathematics"⟩,
     ⟨"Harvard University", "https://www.harvard.edu", "Mathematics"⟩,
     ⟨"Stanford University", "https://www.stanford.edu", "Mathematics"⟩,
     ⟨"Princeton University", "https://www.princeton.edu", "Mathematics"⟩,
     ⟨"Cambridge University", "https://www.cam.ac.uk", "Mathematics"⟩,
     ⟨"Oxford University", "https://www.ox.ac.uk", "Mathematics"⟩,
     ⟨"Caltech", "https://www.caltech.edu", "Mathematics"⟩,
     ⟨"Yale University", "https://www.yale.edu", "Mathematics"⟩,
     ⟨"Columbia University", "https://www.columbia.edu", "Mathematics"⟩,
     ⟨"ANU", "https://www.anu.edu.au", "Mathematical Sciences Institute"⟩,
     ⟨"University of Chicago", "https://www.uchicago.edu", "Mathematics"⟩,
     ⟨"UC Berkeley", "https://www.berkeley.edu", "Mathematics"⟩,
     ⟨"Imperial College London", "https://www.imperial.ac.uk", "Mathematics"⟩])]

/-- Embedding of `get_ai_model_for_subject` (server.py lines 143-145):
`AI_MODELS.get(subject, AI_MODELS["default"])`. The inner `getD` default is
unreachable since AI_MODELS has a "default" key. -/
def get_ai_model_for_subject (subject : String) : ModelDescriptor :=
  (AI_MODELS.lookup subject).getD ((AI_MODELS.lookup "default").getD ⟨"", ""⟩)

/-- Embedding of `get_sources_for_subject` (server.py lines 147-152):
top-5 slice of the subject's resource list, rebuilt field by field;
empty list when the subject is not a key. -/
def get_sources_for_subject (subject : String) : List SourceRec :=
  match UNIVERSITY_RESOURCES.lookup subject with
  | some res => (res.take 5).map (fun r => ⟨r.name, r.url, r.department⟩)
  | none => []

/-- The fixed preamble `base_message` of
`create_educational_system_message` (server.py lines 156-164). -/
def base_message : String :=
  "You are an educational assistant specializing in providing factual, unbiased information for Year 11 and Year 12 students. Your role is to:\n\n1. Provide accurate, educational content appropriate for senior high school level\n2. Always maintain objectivity and avoid bias\n3. Reference trusted university sources when possible\n4. Explain concepts clearly and progressively\n5. Encourage critical thinking and deeper understanding\n\n"

/-- The photography paragraph of `create_educational_system_message`. -/
def photography_message : String :=
  "You are particularly knowledgeable about:\n- Photography techniques and composition\n- Camera settings and equipment\n- History of photography\n- Visual storytelling and artistic expression\n- Technical aspects of image creation"

/-- The film-directing paragraph of `create_educational_system_message`. -/
def film_directing_message : String :=
  "You are particularly knowledgeable about:\n- Film directing techniques and theory\n- Cinematography and visual storytelling\n- Film history and analysis\n- Production processes and workflows\n- Media studies and criticism"

/-- The mathematics paragraph of `create_educational_system_message`. -/
def mathematics_message : String :=
  "You are particularly knowledgeable about:\n- Mathematical concepts and problem-solving\n- Algebra, calculus, and geometry\n- Statistical analysis and data interpretation\n- Mathematical proofs and reasoning\n- Real-world applications of mathematics"

/-- The generic else-branch paragraph of `create_educational_system_message`. -/
def generic_message : String :=
  "You provide comprehensive educational support across multiple subjects."

/-- The fixed header of the sources section. -/
def sources_header : String :=
  "\n\nRefer to these trusted university sources when relevant:\n"

/-- The closing citation instruction. -/
def citation_message : String :=
  "\n\nAlways cite sources when referencing specific information from universities."

/-- One rendered source bullet line: name, then department in parentheses,
then the url, with a trailing newline (the f-string of line 192). -/
def sourceBullet (source : SourceRec) : String :=
  "- " ++ source.name ++ " (" ++ source.department ++ "): " ++ source.url ++ "\n"

/-- Embedding of `create_educational_system_message` (server.py lines 154-194).
The Python `for` loop appending bullets with `+=` is a left fold. -/
def create_educational_system_message (subject : String) (sources : List SourceRec) : String :=
  let subject_message :=
    if subject = "photography" then photography_message
    else if subject = "film_directing" then film_directing_message
    else if subject = "mathematics" then mathematics_message
    else generic_message
  let sources_message := sources.foldl (fun acc source => acc ++ sourceBullet source) sources_header
  base_message ++ subject_message ++ sources_message ++ citation_message

/-- Response record of the resources endpoint
(`UniversityResource` pydantic model, server.py lines 116-120). -/
structure UniversityResource where
  name : String
  url : String
  department : String
  subject : String
deriving DecidableEq, Repr

/-- An HTTP error raised by a handler: `HTTPException(status_code, detail)`. -/
structure HTTPError where
  status : Nat
  detail : String
deriving DecidableEq, Repr

/-- Embedding of the GET resources-by-subject handler
`get_subject_resources` (server.py lines 267-279): 404 when the lowered
subject is not a key, otherwise all entries of the subject's list, each
stamped with the request's (unlowered) subject string. -/
def get_subject_resources (subject : String) : Except HTTPError (List UniversityResource) :=
  match UNIVERSITY_RESOURCES.lookup (strLower subject) with
  | none => Except.error ⟨404, "Subject not found"⟩
  | some res => Except.ok (res.map (fun r => ⟨r.name, r.url, r.department, subject⟩))

/-- Request body of `POST /chat` (`ChatRequest`, server.py lines 105-108). -/
structure ChatRequest where
  message : String
  session_id : String
  subject : Option String
deriving DecidableEq, Repr

/-- The persisted chat exchange (`ChatMessage`, server.py lines 95-103);
the generated uuid and timestamp are elided. -/
structure ChatMessageRec where
  session_id : String
  user_message : String
  ai_response : String
  subject : Option String
  ai_model_used : String
  sources : List SourceRec
deriving DecidableEq, Repr

/-- The document store state visible to the chat handler: the
`chat_messages` collection in insertion order, and the `chat_sessions`
collection abstracted to its `total_messages` counter per session id. -/
structure DBState where
  chat_messages : List ChatMessageRec
  chat_sessions : List (String × Nat)
deriving DecidableEq, Repr

/-- Line 200 `subject = request.subject or detect_subject(request.message)`:
Python `or` falls through on a falsy left operand, so both a missing
subject and an empty-string subject trigger the classifier. -/
def resolve_subject (req : ChatRequest) : String :=
  match req.subject with
  | some s => if s = "" then detect_subject req.message else s
  | none => detect_subject req.message

/-- Line 211 `if not api_key`: true when the env var is unset or empty. -/
def keyMissing : Option String → Bool
  | none => true
  | some k => k == ""

/-- An exception inside the handler's `try` block: either an
`HTTPException` or a provider-client failure carrying a message. -/
inductive ChatFailure where
  | http (err : HTTPError)
  | provider (msg : String)
deriving DecidableEq, Repr

/-- Python `str(e)`: Starlette renders an HTTPException as the status,
a colon-space, and the detail; a plain exception renders as its message. -/
def failureText : ChatFailure → String
  | .http err => toString err.status ++ ": " ++ err.detail
  | .provider msg => msg

/-- The `except` clause (lines 250-252): every failure is re-raised as
`HTTPException(500, "Chat processing failed: " + str(e))`. -/
def wrapFailure (f : ChatFailure) : HTTPError :=
  ⟨500, "Chat processing failed: " ++ failureText f⟩

/-- Lines 239-246: the mongo update keyed by session id sets last_active
and increments total_messages, with upsert; modelled on the counter only. -/
def upsert_session (sessions : List (String × Nat)) (session_id : String) : List (String × Nat) :=
  match sessions.lookup session_id with
  | some _ => sessions.map (fun p => if p.1 = session_id then (p.1, p.2 + 1) else p)
  | none => sessions ++ [(session_id, 1)]

/-- Embedding of the `POST /chat` handler `chat_with_ai`
(server.py lines 196-252). `api_key` is the `EMERGENT_LLM_KEY` env var;
`send` is the external provider client, taking the system message and the
user text and returning the response text or a failure message. The
result pairs the HTTP outcome with the database state after the call. -/
def chat_with_ai (api_key : Option String) (send : String → String → Except String String)
    (req : ChatRequest) (db : DBState) : Except HTTPError ChatMessageRec × DBState :=
  let subject := resolve_subject req
  let model_config := get_ai_model_for_subject subject
  let sources := get_sources_for_subject subject
  let system_message := create_educational_system_message subject sources
  if keyMissing api_key then
    (Except.error (wrapFailure (.http ⟨500, "API key not configured"⟩)), db)
  else
    match send system_message req.message with
    | Except.error msg => (Except.error (wrapFailure (.provider msg)), db)
    | Except.ok ai_response =>
      let chat_message : ChatMessageRec :=
        ⟨req.session_id, req.message, ai_response, some subject,
         model_config.provider ++ "/" ++ model_config.model, sources⟩
      let db1 : DBState := ⟨db.chat_messages ++ [chat_message], db.chat_sessions⟩
      let db2 : DBState := ⟨db1.chat_messages, upsert_session db1.chat_sessions req.session_id⟩
      (Except.ok chat_message, db2)

/-! Specification-side definitions, written from the words of the spec,
to be compared with the embeddings above. -/

/-- Classification as the specification words it (spec section 4.1):
lower-case the message, count for each fixed keyword set the distinct
member keywords occurring as substrings, then branch on the three scores
in the fixed asymmetric priority order. -/
def classify_spec (message : String) : String :=
  let lowered := strLower message
  let scores : Nat × Nat × Nat :=
    (photo_keywords.countP (fun k => strIn k lowered),
     film_keywords.countP (fun k => strIn k lowered),
     math_keywords.countP (fun k => strIn k lowered))
  match scores with
  | (p, f, m) =>
    if p > f ∧ p > m then "photography"
    else if f > m then "film_directing"
    else if m > 0 then "mathematics"
    else "default"

/-- The subject-specific paragraph of the prompt, selected by the
four-way switch of the spec (photography / film_directing /
mathematics / else generic). -/
def subject_paragraph (subject : String) : String :=
  if subject = "photography" then photography_message
  else if subject = "film_directing" then film_directing_message
  else if subject = "mathematics" then mathematics_message
  else generic_message

/-- The sources section as the spec words it: one bullet line per source,
in input order. -/
def renderedSources : List SourceRec → String
  | [] => ""
  | s :: rest => sourceBullet s ++ renderedSources rest

/-! Theorems. -/

/-- Claim C1. For every message, `detect_subject` lower-cases the message,
scores the three keyword sets by distinct substring occurrence, and applies
the asymmetric tie-break (photography only on strict double win, then
film_directing on filmScore > mathScore even at a photography tie, then
mathematics on a positive mathScore, else default); in particular the
message "photo camera film cinema" scores (2, 2, 0) and classifies as
film_directing. -/
theorem detect_subject_matches_spec :
    (∀ message : String, detect_subject message = classify_spec message) ∧
    photo_score "photo camera film cinema" = 2 ∧
    film_score "photo camera film cinema" = 2 ∧
    math_score "photo camera film cinema" = 0 ∧
    detect_subject "photo camera film cinema" = "film_directing" := by
  refine ⟨fun message => ?_, by decide, by decide, by decide, by decide⟩
  simp [detect_subject, classify_spec, keywordScore, List.countP_eq_length_filter]

/-- Unfolding lemma for the basic-latin character lowering. -/
theorem char_toLower_eq (c : Char) :
    c.toLower = if c.toNat ≥ 65 ∧ c.toNat ≤ 90 then Char.ofNat (c.toNat + 32) else c := rfl

/-- Building a character from a valid code point keeps the code point. -/
theorem char_toNat_ofNat_valid (n : Nat) (h : n.isValidChar) :
    (Char.ofNat n).toNat = n := by
  simp only [Char.ofNat, h, dif_pos, Char.ofNatAux, Char.toNat, UInt32.toNat,
    BitVec.toNat_ofNatLt]

/-- Lowering a character twice is the same as lowering it once. -/
theorem char_toLower_idem (c : Char) : c.toLower.toLower = c.toLower := by
  rw [char_toLower_eq c]
  by_cases h : c.toNat ≥ 65 ∧ c.toNat ≤ 90
  · have ht : (Char.ofNat (c.toNat + 32)).toNat = c.toNat + 32 :=
      char_toNat_ofNat_valid _ (Or.inl (by omega))
    rw [if_pos h, char_toLower_eq, if_neg (by rw [ht]; omega)]
  · rw [if_neg h, char_toLower_eq, if_neg h]

/-- Lowering a string twice is the same as lowering it once. -/
theorem strLower_idem (s : String) : strLower (strLower s) = strLower s := by
  simp [strLower, List.map_map, Function.comp_def, char_toLower_idem]

/-- The classifier depends on its input only through the lowered message. -/
theorem detect_subject_congr_lower (m mm : String) (h : strLower m = strLower mm) :
    detect_subject m = detect_subject mm := by
  simp only [detect_subject, h]

/-- Claim C10. `detect_subject` is case-insensitive: two messages with the
same lower-casing (differing only in letter case) classify identically,
and classifying the lowered message agrees with classifying the original. -/
theorem detect_subject_case_insensitive :
    (∀ m mm : String, strLower m = strLower mm → detect_subject m = detect_subject mm) ∧
    (∀ m : String, detect_subject (strLower m) = detect_subject m) :=
  ⟨detect_subject_congr_lower,
   fun m => detect_subject_congr_lower (strLower m) m (strLower_idem m)⟩

/-- Witness for claim C10 at a concrete pair of messages. -/
theorem detect_subject_case_insensitive_witness :
    strLower "Explain CALCULUS" = strLower "explain calculus" ∧
    detect_subject "Explain CALCULUS" = detect_subject "explain calculus" :=
  ⟨by decide, detect_subject_case_insensitive.1 "Explain CALCULUS" "explain calculus" (by decide)⟩

/-- Claim C3 counterexample: the subject "media" is none of the four
SubjectTags, yet `get_ai_model_for_subject` returns the gemini descriptor
for it, not the default openai descriptor. -/
theorem get_ai_model_media_counterexample :
    get_ai_model_for_subject "media" = ⟨"gemini", "gemini-2.0-flash"⟩ ∧
    "media" ≠ "photography" ∧ "media" ≠ "film_directing" ∧
    "media" ≠ "mathematics" ∧ "media" ≠ "default" ∧
    get_ai_model_for_subject "media" ≠ ⟨"openai", "gpt-4o"⟩ := by
  decide

/-- Claim C3 (amended): resolveModel of photography is the anthropic
claude-sonnet-4-20250514 descriptor, and every subject that is not one of
the five AI_MODELS keys (the four SubjectTags plus the extra media key)
falls back to the default openai gpt-4o descriptor. -/
theorem get_ai_model_for_subject_spec :
    get_ai_model_for_subject "photography" = ⟨"anthropic", "claude-sonnet-4-20250514"⟩ ∧
    (∀ subject : String, subject ≠ "photography" → subject ≠ "film_directing" →
      subject ≠ "media" → subject ≠ "mathematics" → subject ≠ "default" →
      get_ai_model_for_subject subject = ⟨"openai", "gpt-4o"⟩) := by
  refine ⟨by decide, fun subject h1 h2 h3 h4 h5 => ?_⟩
  have b1 : (subject == "photography") = false := beq_eq_false_iff_ne.mpr h1
  have b2 : (subject == "film_directing") = false := beq_eq_false_iff_ne.mpr h2
  have b3 : (subject == "media") = false := beq_eq_false_iff_ne.mpr h3
  have b4 : (subject == "mathematics") = false := beq_eq_false_iff_ne.mpr h4
  have b5 : (subject == "default") = false := beq_eq_false_iff_ne.mpr h5
  simp [get_ai_model_for_subject, AI_MODELS, List.lookup, b1, b2, b3, b4, b5]

/-- Witness for claim C3 at the concrete unknown subject of the spec. -/
theorem get_ai_model_for_subject_spec_witness :
    get_ai_model_for_subject "unknown_subject" = ⟨"openai", "gpt-4o"⟩ :=
  get_ai_model_for_subject_spec.2 "unknown_subject"
    (by decide) (by decide) (by decide) (by decide) (by decide)

/-- Claim C7: resolveSources returns at most 5 entries for every subject;
for mathematics it returns exactly MIT, Harvard, Stanford, Princeton and
Cambridge in the declared order; for a subject absent from the source
table it returns the empty list. -/
theorem get_sources_for_subject_spec :
    (∀ subject : String, (get_sources_for_subject subject).length ≤ 5) ∧
    (get_sources_for_subject "mathematics").map SourceRec.name =
      ["MIT", "Harvard University", "Stanford University", "Princeton University",
       "Cambridge University"] ∧
    (∀ subject : String, subject ≠ "photography" → subject ≠ "film_directing" →
      subject ≠ "mathematics" → get_sources_for_subject subject = []) := by
  refine ⟨fun subject => ?_, by decide, fun subject h1 h2 h3 => ?_⟩
  · cases hl : UNIVERSITY_RESOURCES.lookup subject with
    | none => simp [get_sources_for_subject, hl]
    | some res =>
      simp only [get_sources_for_subject, hl, List.length_map, List.length_take]
      omega
  · have b1 : (subject == "photography") = false := beq_eq_false_iff_ne.mpr h1
    have b2 : (subject == "film_directing") = false := beq_eq_false_iff_ne.mpr h2
    have b3 : (subject == "mathematics") = false := beq_eq_false_iff_ne.mpr h3
    simp [get_sources_for_subject, UNIVERSITY_RESOURCES, List.lookup, b1, b2, b3]

/-- Witness for claim C7 at a concrete absent subject. -/
theorem get_sources_for_subject_spec_witness :
    get_sources_for_subject "history" = [] :=
  get_sources_for_subject_spec.2.2 "history" (by decide) (by decide) (by decide)

/-- Claim C2 counterexample: the default tag is a key of the model table
but not of the source table; moreover a chat request with the explicit
subject "banana" persists an exchange whose tag is a key of neither table. -/
theorem subject_tag_tables_counterexample :
    (AI_MODELS.lookup "default").isSome = true ∧
    UNIVERSITY_RESOURCES.lookup "default" = none ∧
    (chat_with_ai (some "key") (fun _ _ => Except.ok "resp") ⟨"hello", "s1", some "banana"⟩
        ⟨[], []⟩).1 =
      Except.ok ⟨"s1", "hello", "resp", some "banana", "openai/gpt-4o", []⟩ ∧
    AI_MODELS.lookup "banana" = none ∧
    UNIVERSITY_RESOURCES.lookup "banana" = none :=
  ⟨by decide, by decide, rfl, by decide, by decide⟩

/-- Claim C2 (amended): every classifier-produced tag is one of the four
SubjectTags and a key of the model table, whose default entry always
exists; the source table holds only the three concrete subjects, so the
default tag has no source-table entry and resolveSources falls back to
the empty list for it, keeping both lookups total. -/
theorem subject_tag_tables :
    (∀ message : String,
      detect_subject message = "photography" ∨ detect_subject message = "film_directing" ∨
        detect_subject message = "mathematics" ∨ detect_subject message = "default") ∧
    (∀ message : String, (AI_MODELS.lookup (detect_subject message)).isSome = true) ∧
    (AI_MODELS.lookup "default").isSome = true ∧
    UNIVERSITY_RESOURCES.lookup "default" = none ∧
    get_sources_for_subject "default" = [] := by
  have hrange : ∀ message : String,
      detect_subject message = "photography" ∨ detect_subject message = "film_directing" ∨
        detect_subject message = "mathematics" ∨ detect_subject message = "default" := by
    intro message
    simp only [detect_subject]
    split_ifs <;> simp
  refine ⟨hrange, fun message => ?_, by decide, by decide, by decide⟩
  rcases hrange message with h | h | h | h <;> rw [h] <;> decide

/-- The bullet loop of the prompt builder renders the bullet list of its
sources, in order, after its seed string. -/
theorem foldl_bullets (l : List SourceRec) (init : String) :
    l.foldl (fun acc source => acc ++ sourceBullet source) init = init ++ renderedSources l := by
  induction l generalizing init with
  | nil => simp [renderedSources]
  | cons hd tl ih => simp [renderedSources, List.foldl_cons, ih, String.append_assoc]

/-- Claim C8. The prompt builder is a pure deterministic function whose
output is exactly the fixed preamble, then the subject paragraph selected
by the four-way switch, then the sources header with one bullet line per
source in input order, then the closing citation instruction, in that
section order for every input. -/
theorem create_educational_system_message_spec (subject : String) (sources : List SourceRec) :
    create_educational_system_message subject sources =
      base_message ++ subject_paragraph subject ++
        (sources_header ++ renderedSources sources) ++ citation_message := by
  simp only [create_educational_system_message, subject_paragraph, foldl_bullets]

/-- Claim C4 counterexample: for the known subject photography the
resources endpoint returns 13 items, more than the 5-or-fewer the claim
allows. -/
theorem get_subject_resources_counterexample :
    Except.map List.length (get_subject_resources "photography") = Except.ok 13 ∧
    5 < 13 :=
  ⟨rfl, by decide⟩

/-- Claim C4 (amended): the resources endpoint fails with 404 exactly when
the lower-cased subject is not a key of the source table; for a known
subject it returns every entry of that subject's list (13 for photography,
not a 5-or-fewer slice), each item carrying the requested subject. -/
theorem get_subject_resources_spec :
    (∀ subject : String, strLower subject ≠ "photography" →
      strLower subject ≠ "film_directing" → strLower subject ≠ "mathematics" →
      get_subject_resources subject = Except.error ⟨404, "Subject not found"⟩) ∧
    (∀ (subject : String) (l : List UniversityResource),
      get_subject_resources subject = Except.ok l → ∀ r ∈ l, r.subject = subject) ∧
    Except.map List.length (get_subject_resources "photography") = Except.ok 13 := by
  refine ⟨fun subject h1 h2 h3 => ?_, fun subject l h r hr => ?_, rfl⟩
  · have b1 : (strLower subject == "photography") = false := beq_eq_false_iff_ne.mpr h1
    have b2 : (strLower subject == "film_directing") = false := beq_eq_false_iff_ne.mpr h2
    have b3 : (strLower subject == "mathematics") = false := beq_eq_false_iff_ne.mpr h3
    simp [get_subject_resources, UNIVERSITY_RESOURCES, List.lookup, b1, b2, b3]
  · cases hl : UNIVERSITY_RESOURCES.lookup (strLower subject) with
    | none => simp [get_subject_resources, hl] at h
    | some res =>
      simp only [get_subject_resources, hl, Except.ok.injEq] at h
      subst h
      obtain ⟨a, ha, rfl⟩ := List.mem_map.mp hr
      rfl

/-- Witness for claim C4 at a concrete unknown subject. -/
theorem get_subject_resources_spec_witness :
    get_subject_resources "unknown" = Except.error ⟨404, "Subject not found"⟩ :=
  get_subject_resources_spec.1 "unknown" (by decide) (by decide) (by decide)

/-- Claim C5. With a configured key, a failing provider send persists
nothing — the database state is returned unchanged, so no exchange insert
and no session upsert happen — and the surfaced error carries the
underlying failure message with no retry; the insert and the upsert are
performed exactly on a successful provider response. -/
theorem chat_with_ai_provider_failure (key : String)
    (send : String → String → Except String String) (req : ChatRequest) (db : DBState)
    (hk : key ≠ "") :
    (∀ msg : String,
      send (create_educational_system_message (resolve_subject req)
        (get_sources_for_subject (resolve_subject req))) req.message = Except.error msg →
      chat_with_ai (some key) send req db =
        (Except.error ⟨500, "Chat processing failed: " ++ msg⟩, db)) ∧
    (∀ resp : String,
      send (create_educational_system_message (resolve_subject req)
        (get_sources_for_subject (resolve_subject req))) req.message = Except.ok resp →
      ∃ cm : ChatMessageRec, cm.ai_response = resp ∧
        chat_with_ai (some key) send req db =
          (Except.ok cm,
           ⟨db.chat_messages ++ [cm], upsert_session db.chat_sessions req.session_id⟩)) := by
  have hkm : keyMissing (some key) = false := beq_eq_false_iff_ne.mpr hk
  refine ⟨fun msg h => ?_, fun resp h => ?_⟩
  · simp [chat_with_ai, hkm, h, wrapFailure, failureText]
  · exact ⟨⟨req.session_id, req.message, resp, some (resolve_subject req),
      (get_ai_model_for_subject (resolve_subject req)).provider ++ "/" ++
        (get_ai_model_for_subject (resolve_subject req)).model,
      get_sources_for_subject (resolve_subject req)⟩, rfl, by
        simp [chat_with_ai, hkm, h]⟩

/-- Witness for claim C5 at a concrete failing provider. -/
theorem chat_with_ai_provider_failure_witness :
    chat_with_ai (some "k") (fun _ _ => Except.error "boom") ⟨"m", "s", none⟩ ⟨[], []⟩ =
      (Except.error ⟨500, "Chat processing failed: boom"⟩, ⟨[], []⟩) :=
  (chat_with_ai_provider_failure "k" (fun _ _ => Except.error "boom") ⟨"m", "s", none⟩
    ⟨[], []⟩ (by decide)).1 "boom" rfl

/-- Claim C6. When the EMERGENT_LLM_KEY credential is missing (unset or
empty), a chat request fails with the fixed-status 500 not-configured
error, the database is untouched, and the outcome does not depend on the
provider send function at all — no external call is made. -/
theorem chat_with_ai_missing_key (api_key : Option String) (req : ChatRequest) (db : DBState)
    (h : keyMissing api_key = true) :
    (∀ send : String → String → Except String String,
      chat_with_ai api_key send req db =
        (Except.error ⟨500, "Chat processing failed: 500: API key not configured"⟩, db)) ∧
    (∀ send1 send2 : String → String → Except String String,
      chat_with_ai api_key send1 req db = chat_with_ai api_key send2 req db) := by
  have hfix : wrapFailure (.http ⟨500, "API key not configured"⟩) =
      (⟨500, "Chat processing failed: 500: API key not configured"⟩ : HTTPError) := rfl
  refine ⟨fun send => ?_, fun s1 s2 => ?_⟩
  · simp [chat_with_ai, h, hfix]
  · simp [chat_with_ai, h]

/-- Witness for claim C6 with an unset key and a provider that would
succeed if consulted. -/
theorem chat_with_ai_missing_key_witness :
    chat_with_ai none (fun _ _ => Except.ok "resp") ⟨"m", "s", none⟩ ⟨[], []⟩ =
      (Except.error ⟨500, "Chat processing failed: 500: API key not configured"⟩, ⟨[], []⟩) :=
  (chat_with_ai_missing_key none ⟨"m", "s", none⟩ ⟨[], []⟩ rfl).1 (fun _ _ => Except.ok "resp")

/-- Claim C9 counterexample: a request supplying the empty-string subject
does not use it as-is — the classifier runs on the message and the
resolved subject is mathematics, not the supplied empty string. -/
theorem resolve_subject_empty_counterexample :
    resolve_subject ⟨"Explain calculus", "s1", some ""⟩ = "mathematics" ∧
    resolve_subject ⟨"Explain calculus", "s1", some ""⟩ ≠ "" := by
  decide

/-- Claim C9 (amended): a supplied non-empty subject is used as-is and the
classifier is not consulted; the classifier is consulted exactly when the
subject field is absent or the empty string; and any successfully
persisted exchange carries the resolved subject. -/
theorem resolve_subject_spec :
    (∀ message sid subject : String, subject ≠ "" →
      resolve_subject ⟨message, sid, some subject⟩ = subject) ∧
    (∀ message sid : String, resolve_subject ⟨message, sid, none⟩ = detect_subject message) ∧
    (∀ message sid : String, resolve_subject ⟨message, sid, some ""⟩ = detect_subject message) ∧
    (∀ (api_key : Option String) (send : String → String → Except String String)
       (req : ChatRequest) (db : DBState) (cm : ChatMessageRec),
      (chat_with_ai api_key send req db).1 = Except.ok cm →
      cm.subject = some (resolve_subject req)) := by
  refine ⟨fun message sid subject hs => ?_, fun message sid => rfl, fun message sid => rfl,
    fun api_key send req db cm h => ?_⟩
  · simp [resolve_subject, hs]
  · by_cases hk : keyMissing api_key = true
    · simp [chat_with_ai, hk] at h
    · have hk2 : keyMissing api_key = false := by
        cases hb : keyMissing api_key
        · rfl
        · exact absurd hb hk
      cases hsend : send (create_educational_system_message (resolve_subject req)
          (get_sources_for_subject (resolve_subject req))) req.message with
      | error msg => simp [chat_with_ai, hk2, hsend] at h
      | ok resp =>
        simp only [chat_with_ai, hk2, Bool.false_eq_true, if_false, hsend,
          Except.ok.injEq] at h
        subst h
        rfl

/-- Witness for claim C9 at a concrete supplied subject. -/
theorem resolve_subject_spec_witness :
    resolve_subject ⟨"anything", "s1", some "history"⟩ = "history" :=
  resolve_subject_spec.1 "anything" "s1" "history" (by decide)

end StudyAI
